import Mathlib

/-!
Verification development for the TaylorDB fullstack template.

The file shallowly embeds the behavioural parts of the repository that the
specification talks about:

* the example posts router (apps/server, in-memory CRUD store),
* the tRPC request-context factory (apps/server/trpc.ts),
* the multipart upload endpoint and its size formatter (apps/server upload
  router),
* the filter and insert value contracts declared by the query-builder type
  file (DateFilters, TextFilters, NumberFilters, CheckboxFilters,
  SelectFilters, LinkFilters, SingleSelectColumnType, ...), together with
  the query-translation operations buildSelect, buildInsert, buildUpdate and
  buildDelete, which the repository consumes from the vendor package and
  which are therefore modelled from the specification,
* a model of the validate-then-dispatch procedure pipeline.

JavaScript Date values are modelled as natural-number timestamps passed in
explicitly; JavaScript numbers that hold ids and sizes are modelled as Int
and Nat respectively (no claim exercises non-integral values).
-/

namespace TaylorGateway

/-! ## Posts router (in-memory store)

Embeds the module-level mutable state of the posts router, namely the array
of posts and the id counter, as an explicit state record that every handler
takes and returns. Handlers that the source writes as reads return the state
unchanged. -/

structure Post where
  id : Int
  title : String
  content : String
  authorId : Int
  published : Bool
  createdAt : Nat
  deriving Repr, DecidableEq

structure PostsState where
  posts : List Post
  nextId : Int
  deriving Repr, DecidableEq

/-- The seed store of the source module: one post with id 1, and the id
counter initialised to 2. The module-load timestamp is modelled as 0. -/
def initialPosts : PostsState :=
  { posts := [{ id := 1, title := "Hello World",
                content := "This is my first post!", authorId := 1,
                published := true, createdAt := 0 }],
    nextId := 2 }

/-- Optional filter input of posts.getAll. -/
structure GetAllInput where
  published : Option Bool
  authorId : Option Int
  deriving Repr, DecidableEq

/-- Validated input of posts.create. The zod default for published is
already applied, so the field is plain Bool. -/
structure CreateInput where
  title : String
  content : String
  authorId : Int
  published : Bool
  deriving Repr, DecidableEq

/-- Input of posts.update after zod parsing: optional title, content and
published alongside the mandatory id. -/
structure UpdateInput where
  id : Int
  title : Option String
  content : Option String
  published : Option Bool
  deriving Repr, DecidableEq

namespace postsRouter

/-- Handler of posts.getAll: filters by published and authorId when the
optional input supplies them; the store is not modified. -/
def getAll (input : Option GetAllInput) (s : PostsState) :
    List Post × PostsState :=
  let r0 := s.posts
  let r1 := match input with
    | none => r0
    | some i => match i.published with
      | none => r0
      | some b => r0.filter (fun p => p.published = b)
  let r2 := match input with
    | none => r1
    | some i => match i.authorId with
      | none => r1
      | some a => r1.filter (fun p => p.authorId = a)
  (r2, s)

/-- Handler of posts.getById: finds the first post with the given id and
throws a Post-not-found error when there is none. -/
def getById (id : Int) (s : PostsState) :
    Except String Post × PostsState :=
  match s.posts.find? (fun p => p.id = id) with
  | none => (Except.error "Post not found", s)
  | some p => (Except.ok p, s)

/-- Handler of posts.create: builds the new post from the input, takes the
current value of the id counter and post-increments it, then pushes the new
post at the end of the array. The call-time timestamp is the now argument. -/
def create (input : CreateInput) (now : Nat) (s : PostsState) :
    Post × PostsState :=
  let newPost : Post :=
    { id := s.nextId, title := input.title, content := input.content,
      authorId := input.authorId, published := input.published,
      createdAt := now }
  (newPost, { posts := s.posts ++ [newPost], nextId := s.nextId + 1 })

/-- In-place mutation performed by posts.update on the found post. The
source guards title and content by truthiness, so a present empty string
would be skipped; published is guarded by an undefined check. -/
def applyUpdate (p : Post) (input : UpdateInput) : Post :=
  { p with
    title := match input.title with
      | some t => if t ≠ "" then t else p.title
      | none => p.title,
    content := match input.content with
      | some c => if c ≠ "" then c else p.content
      | none => p.content,
    published := match input.published with
      | some b => b
      | none => p.published }

/-- Replaces the first post whose id matches by the given post, modelling
the in-place mutation of the object returned by find. -/
def replaceFirst : List Post → Int → Post → List Post
  | [], _, _ => []
  | p :: rest, i, q =>
      if p.id = i then q :: rest else p :: replaceFirst rest i q

/-- Handler of posts.update: finds the first post with the given id,
throws Post-not-found when absent, otherwise mutates that post in place
per applyUpdate and returns it. -/
def update (input : UpdateInput) (s : PostsState) :
    Except String Post × PostsState :=
  match s.posts.find? (fun p => p.id = input.id) with
  | none => (Except.error "Post not found", s)
  | some p =>
      let p' := applyUpdate p input
      (Except.ok p', { s with posts := replaceFirst s.posts input.id p' })

/-- Handler of posts.delete: finds the index of the first post with the
given id, throws Post-not-found when absent, otherwise splices that single
element out of the array and returns it. -/
def delete (id : Int) (s : PostsState) :
    Except String Post × PostsState :=
  match s.posts.find? (fun p => p.id = id) with
  | none => (Except.error "Post not found", s)
  | some p =>
      (Except.ok p,
       { s with posts := s.posts.eraseP (fun q => q.id = id) })

/-- Handler of posts.publish: finds the first post with the given id,
throws Post-not-found when absent, otherwise sets published to true in
place and returns the post. -/
def publish (id : Int) (s : PostsState) :
    Except String Post × PostsState :=
  match s.posts.find? (fun p => p.id = id) with
  | none => (Except.error "Post not found", s)
  | some p =>
      let p' := { p with published := true }
      (Except.ok p', { s with posts := replaceFirst s.posts id p' })

end postsRouter

/-- Invariant of the posts store: ids are pairwise distinct and the id
counter strictly dominates every stored id. -/
def PostsInv (s : PostsState) : Prop :=
  (s.posts.map Post.id).Nodup ∧ ∀ p ∈ s.posts, p.id < s.nextId

instance : DecidablePred PostsInv := by
  intro s
  unfold PostsInv
  infer_instance

/-! ## Request context factory (apps/server/trpc.ts)

The factory reads the app access token cookie from the request. When the
token is missing, or present but empty (JavaScript truthiness), it throws
an Unauthorized error before anything else runs; otherwise it constructs a
query-builder client from the process configuration and that token. The
embedding additionally returns the number of client constructions performed,
so that the never-constructs-a-client part of the contract is observable. -/

structure QueryBuilderConfig where
  baseUrl : String
  baseId : String
  apiKey : String
  deriving Repr, DecidableEq

/-- Process configuration read by the factory. -/
structure EnvConfig where
  taylordbBaseUrl : String
  taylordbServerId : String
  deriving Repr, DecidableEq

/-- Inbound request metadata: the cookie map may itself be absent, since no
cookie middleware is guaranteed, and the source guards with optional
chaining. -/
structure TrpcRequest where
  cookies : Option (List (String × String))
  deriving Repr, DecidableEq

/-- The optional-chained cookie access of the source. -/
def getCookie (r : TrpcRequest) (name : String) : Option String :=
  match r.cookies with
  | none => none
  | some cs => (cs.find? (fun kv => kv.1 = name)).map (fun kv => kv.2)

inductive CtxError where
  | unauthorized
  deriving Repr, DecidableEq

/-- The per-request context returned on success. The request and response
handles carried along by the source are not modelled. -/
structure Context where
  queryBuilder : QueryBuilderConfig
  deriving Repr, DecidableEq

/-- The context factory of trpc.ts. The second component counts calls of
createQueryBuilder. -/
def createContext (env : EnvConfig) (r : TrpcRequest) :
    Except CtxError Context × Nat :=
  match getCookie r "app_access_token" with
  | none => (Except.error CtxError.unauthorized, 0)
  | some tok =>
      if tok = "" then (Except.error CtxError.unauthorized, 0)
      else
        (Except.ok
          { queryBuilder :=
            { baseUrl := env.taylordbBaseUrl,
              baseId := env.taylordbServerId,
              apiKey := tok } }, 1)

/-! ## Upload endpoint (apps/server upload router)

The multer limits configured in the source are 10 MB per file and 10 files
per request; multer itself (the enforcing middleware) is a vendor package,
so its rejection behaviour is modelled from the specification. The handler
body after the middleware is embedded from the source. -/

/-- A file as exposed by multer memory storage; only the metadata the
handler reads is kept. -/
structure UploadFile where
  originalname : String
  mimetype : String
  size : Nat
  deriving Repr, DecidableEq

/-- Per-file size ceiling configured for multer in the source. -/
def maxFileSize : Nat := 10 * 1024 * 1024

/-- File-count ceiling configured for multer in the source. -/
def maxFiles : Nat := 10

inductive UploadError where
  | tooManyFiles
  | fileTooLarge
  | noFiles
  deriving Repr, DecidableEq

/-- Modelled from the spec: the enforcement of the configured multer
limits, which lives in the vendor multer package. A batch with more files
than the ceiling fails wholesale with a too-many-files condition, a batch
holding any file above the size ceiling fails wholesale with a
file-too-large condition, and nothing of a failed batch is passed on. -/
def multerCheck (files : List UploadFile) :
    Except UploadError (List UploadFile) :=
  if files.length > maxFiles then Except.error UploadError.tooManyFiles
  else if files.any (fun f => f.size > maxFileSize) then
    Except.error UploadError.fileTooLarge
  else Except.ok files

/-- One metadata entry of the response. -/
structure FileMetadata where
  originalName : String
  mimeType : String
  size : Nat
  sizeFormatted : String
  deriving Repr, DecidableEq

/-- Renders the toFixed call of the source with one decimal digit on the
exact rational bytes divided by 1024 to the power i: the nearest multiple
of one tenth, ties resolved upward as ECMAScript toFixed prescribes. The
double arithmetic of the source is exact here because the divisor is a
power of two and the sizes lie far below 2 to the 53. -/
def toFixedOne (bytes : Nat) (denom : Nat) : String :=
  let scaled := (20 * bytes + denom) / (2 * denom)
  toString (scaled / 10) ++ "." ++ toString (scaled % 10)

/-- The size formatter of the upload router: unit index by the floor
logarithm base 1024, no decimal digit for bytes, one decimal digit
otherwise. An index beyond the unit table would render the JavaScript
undefined value; the configured ceilings keep the index at most 2. -/
def formatFileSize (bytes : Nat) : String :=
  if bytes = 0 then "0 B"
  else
    let i := Nat.log 1024 bytes
    let unit := (["B", "KB", "MB", "GB"].getD i "undefined")
    let rendered :=
      if i = 0 then toString bytes
      else toFixedOne bytes (1024 ^ i)
    rendered ++ " " ++ unit

/-- The metadata map of the handler body. -/
def fileMeta (f : UploadFile) : FileMetadata :=
  { originalName := f.originalname, mimeType := f.mimetype,
    size := f.size, sizeFormatted := formatFileSize f.size }

/-- Successful response payload of the upload endpoint. The uploadedAt
timestamp is the now argument rendered opaquely. -/
structure UploadResponseData where
  filesCount : Nat
  files : List FileMetadata
  totalSize : String
  uploadedAt : Nat
  deriving Repr, DecidableEq

/-- The upload endpoint: multer enforcement first, then the handler body of
the source, which rejects an empty batch and otherwise answers with one
metadata entry per file in input order plus the formatted byte total. -/
def uploadEndpoint (files : List UploadFile) (now : Nat) :
    Except UploadError UploadResponseData :=
  match multerCheck files with
  | Except.error e => Except.error e
  | Except.ok fs =>
      if fs.length = 0 then Except.error UploadError.noFiles
      else
        Except.ok
          { filesCount := fs.length,
            files := fs.map fileMeta,
            totalSize :=
              formatFileSize (fs.foldl (fun sum f => sum + f.size) 0),
            uploadedAt := now }

/-! ## Column kinds and filter value contracts

The repository declares, in its query-builder type file, which value shapes
each filter operator of each column kind accepts (DateFilters, TextFilters,
NumberFilters, CheckboxFilters, SelectFilters, LinkFilters). Those
declarations are compile-time types there; following the design note of the
specification they are re-expressed here as an explicit runtime lookup from
column kind and operator to a decidable value-shape check. -/

/-- Runtime universe of filter comparison values. A two-element tuple whose
head is a tag string is the tagged-tuple form; strList and numList are the
plain sequence forms; valueDate is the object form of the isWithIn
operator. -/
inductive FilterValue where
  | str (s : String)
  | num (n : Int)
  | boolV (b : Bool)
  | tagStr (tag : String) (s : String)
  | tagNum (tag : String) (n : Int)
  | strList (l : List String)
  | numList (l : List Int)
  | valueDate (value : String) (date : Int)
  deriving Repr, DecidableEq

/-- Column kinds of the schema descriptor. Select kinds carry their option
sets. -/
inductive ColumnKind where
  | text
  | number
  | date
  | checkbox
  | singleSelect (options : List String)
  | multiSelect (options : List String)
  | link
  | attachment
  deriving Repr, DecidableEq

/-- The DefaultDateFilterValue declaration: one of seven relative-day
keywords, or a tagged exactDay or exactTimestamp tuple with a string, or a
tagged daysAgo or daysFromNow tuple with a number. -/
def validDateValue : FilterValue → Bool
  | FilterValue.str s =>
      s = "today" || s = "tomorrow" || s = "yesterday" ||
      s = "oneWeekAgo" || s = "oneWeekFromNow" ||
      s = "oneMonthAgo" || s = "oneMonthFromNow"
  | FilterValue.tagStr t _ => t = "exactDay" || t = "exactTimestamp"
  | FilterValue.tagNum t _ => t = "daysAgo" || t = "daysFromNow"
  | _ => false

/-- The IsWithinOperatorValue declaration. -/
def isWithinKeyword (s : String) : Bool :=
  s = "pastWeek" || s = "pastMonth" || s = "pastYear" ||
  s = "nextWeek" || s = "nextMonth" || s = "nextYear" ||
  s = "daysFromNow" || s = "daysAgo" ||
  s = "currentWeek" || s = "currentMonth" || s = "currentYear"

/-- Comparison operators shared by the ordered filter declarations. -/
def comparisonOps : List String := ["=", "!=", "<", ">", "<=", ">="]

/-- The DateFilters declaration as a runtime check. -/
def validDateFilter (op : String) (v : FilterValue) : Bool :=
  if op ∈ comparisonOps then validDateValue v
  else if op = "isWithIn" then
    match v with
    | FilterValue.str s => isWithinKeyword s
    | FilterValue.valueDate t _ => t = "daysAgo" || t = "daysFromNow"
    | _ => false
  else if op = "isEmpty" || op = "isNotEmpty" then
    match v with
    | FilterValue.boolV _ => true
    | _ => false
  else false

/-- The TextFilters declaration as a runtime check; the never-typed
operators accept no value. -/
def validTextFilter (op : String) (v : FilterValue) : Bool :=
  if op = "=" || op = "!=" || op = "caseEqual" || op = "contains" ||
     op = "startsWith" || op = "endsWith" || op = "doesNotContain" then
    match v with
    | FilterValue.str _ => true
    | _ => false
  else if op = "hasAnyOf" then
    match v with
    | FilterValue.strList _ => true
    | _ => false
  else false

/-- The NumberFilters declaration as a runtime check. -/
def validNumberFilter (op : String) (v : FilterValue) : Bool :=
  if op ∈ comparisonOps then
    match v with
    | FilterValue.num _ => true
    | _ => false
  else if op = "hasAnyOf" || op = "hasNoneOf" then
    match v with
    | FilterValue.numList _ => true
    | _ => false
  else false

/-- The CheckboxFilters declaration as a runtime check: only equality, and
the declared value type is number. -/
def validCheckboxFilter (op : String) (v : FilterValue) : Bool :=
  if op = "=" then
    match v with
    | FilterValue.num _ => true
    | _ => false
  else false

/-- The SelectFilters declaration as a runtime check over the option set of
the column. -/
def validSelectFilter (options : List String) (op : String)
    (v : FilterValue) : Bool :=
  if op = "hasAnyOf" || op = "hasAllOf" || op = "isExactly" ||
     op = "hasNoneOf" then
    match v with
    | FilterValue.strList l => l.all (fun s => s ∈ options)
    | _ => false
  else if op = "=" then
    match v with
    | FilterValue.str s => s ∈ options
    | _ => false
  else if op = "contains" || op = "doesNotContain" then
    match v with
    | FilterValue.str _ => true
    | _ => false
  else false

/-- The LinkFilters declaration (shared by link and attachment columns) as
a runtime check. -/
def validLinkFilter (op : String) (v : FilterValue) : Bool :=
  if op = "hasAnyOf" || op = "hasAllOf" || op = "isExactly" ||
     op = "hasNoneOf" then
    match v with
    | FilterValue.numList _ => true
    | _ => false
  else if op = "=" then
    match v with
    | FilterValue.num _ => true
    | _ => false
  else if op = "contains" || op = "doesNotContain" then
    match v with
    | FilterValue.str _ => true
    | _ => false
  else false

/-- Dispatch of the per-kind filter checks. -/
def validFilter : ColumnKind → String → FilterValue → Bool
  | ColumnKind.text, op, v => validTextFilter op v
  | ColumnKind.number, op, v => validNumberFilter op v
  | ColumnKind.date, op, v => validDateFilter op v
  | ColumnKind.checkbox, op, v => validCheckboxFilter op v
  | ColumnKind.singleSelect options, op, v => validSelectFilter options op v
  | ColumnKind.multiSelect options, op, v => validSelectFilter options op v
  | ColumnKind.link, op, v => validLinkFilter op v
  | ColumnKind.attachment, op, v => validLinkFilter op v

/-! ## Insert and update value contracts -/

/-- Runtime universe of insert and update values. -/
inductive InsertValue where
  | str (s : String)
  | num (n : Int)
  | boolV (b : Bool)
  | strList (l : List String)
  | numList (l : List Int)
  deriving Repr, DecidableEq

/-- Modelled from the spec: normalisation of a column value at insert or
update time, performed inside the vendor query-builder package. Per the
declared insert types, text and date columns take strings, number columns
numbers, checkbox columns booleans, multi-select columns sequences of
admissible options, link and attachment columns ids or id sequences. A
single-select column accepts either a bare admissible option or a singleton
sequence holding one, and both shapes are stored as the bare option, which
is the declared raw shape of the column. Inadmissible values yield none. -/
def normalizeInsert : ColumnKind → InsertValue → Option InsertValue
  | ColumnKind.text, InsertValue.str s => some (InsertValue.str s)
  | ColumnKind.date, InsertValue.str s => some (InsertValue.str s)
  | ColumnKind.number, InsertValue.num n => some (InsertValue.num n)
  | ColumnKind.checkbox, InsertValue.boolV b => some (InsertValue.boolV b)
  | ColumnKind.singleSelect options, InsertValue.str s =>
      if s ∈ options then some (InsertValue.str s) else none
  | ColumnKind.singleSelect options, InsertValue.strList [s] =>
      if s ∈ options then some (InsertValue.str s) else none
  | ColumnKind.multiSelect options, InsertValue.strList l =>
      if l.all (fun s => s ∈ options) then some (InsertValue.strList l)
      else none
  | ColumnKind.link, InsertValue.num n => some (InsertValue.num n)
  | ColumnKind.link, InsertValue.numList l => some (InsertValue.numList l)
  | ColumnKind.attachment, InsertValue.numList l =>
      some (InsertValue.numList l)
  | _, _ => none

/-! ## Query translation layer

The operations below are consumed from the vendor package by the
repository; only their typed surface is declared in the source tree, so the
operations themselves are modelled from the specification: every contract
violation raises a validation error carrying the offending column, operator
and value, nothing is partially built, and an empty filter set on update or
delete is legal but flagged as broad impact. -/

/-- Schema descriptor entry: column name, kind and required flag. -/
structure ColumnDef where
  name : String
  kind : ColumnKind
  required : Bool
  deriving Repr, DecidableEq

/-- A table schema is its column list. -/
abbrev TableSchema := List ColumnDef

/-- Validation error carrying the offending column, operator and value,
per the failure clause of the query-translation contract. -/
structure ValidationError where
  column : String
  op : String
  value : Option FilterValue
  deriving Repr, DecidableEq

/-- One filter predicate: column, operator, comparison value. -/
structure FilterTriple where
  column : String
  op : String
  value : FilterValue
  deriving Repr, DecidableEq

/-- Looks a column up in the schema. -/
def findColumn (schema : TableSchema) (name : String) : Option ColumnDef :=
  List.find? (fun c => c.name = name) schema

/-- Modelled from the spec: validation of one filter predicate against the
schema. Unknown columns and operator or value shapes outside the declared
filter contract of the column kind are rejected. -/
def checkFilter (schema : TableSchema) (f : FilterTriple) :
    Except ValidationError Unit :=
  match findColumn schema f.column with
  | none => Except.error { column := f.column, op := f.op,
                           value := some f.value }
  | some c =>
      if validFilter c.kind f.op f.value then Except.ok ()
      else Except.error { column := f.column, op := f.op,
                          value := some f.value }

/-- Runs a check over every filter, all-or-nothing. -/
def checkFilters (schema : TableSchema) :
    List FilterTriple → Except ValidationError Unit
  | [] => Except.ok ()
  | f :: rest =>
      match checkFilter schema f with
      | Except.error e => Except.error e
      | Except.ok _ => checkFilters schema rest

/-- Opaque query description produced by buildSelect. -/
structure SelectDescr where
  table : String
  columns : List String
  filters : List FilterTriple
  deriving Repr, DecidableEq

/-- Modelled from the spec: buildSelect validates that every requested
column is declared and every filter respects the filter contract of its
column kind, then produces the opaque query description; any violation
raises a validation error and nothing is built. Ordering and pagination are
not exercised by any claim and are left out of the description. -/
def buildSelect (schema : TableSchema) (table : String)
    (columns : List String) (filters : List FilterTriple) :
    Except ValidationError SelectDescr :=
  match columns.find? (fun c => (findColumn schema c).isNone) with
  | some c => Except.error { column := c, op := "select", value := none }
  | none =>
      match checkFilters schema filters with
      | Except.error e => Except.error e
      | Except.ok _ =>
          Except.ok { table := table, columns := columns, filters := filters }

/-- Stored row produced by a successful insert or update build: normalised
column values. -/
abbrev StoredRow := List (String × InsertValue)

/-- Normalises a value list against the schema, all-or-nothing. -/
def normalizeValues (schema : TableSchema) :
    List (String × InsertValue) → Except ValidationError StoredRow
  | [] => Except.ok []
  | (name, v) :: rest =>
      match findColumn schema name with
      | none => Except.error { column := name, op := "value", value := none }
      | some c =>
          match normalizeInsert c.kind v with
          | none => Except.error { column := name, op := "value",
                                   value := none }
          | some v' =>
              match normalizeValues schema rest with
              | Except.error e => Except.error e
              | Except.ok tail => Except.ok ((name, v') :: tail)

/-- Modelled from the spec: buildInsert validates that every required
column is supplied and that every supplied value matches the insert
contract of its column kind, then yields the normalised stored row. -/
def buildInsert (schema : TableSchema) (table : String)
    (values : List (String × InsertValue)) :
    Except ValidationError (String × StoredRow) :=
  match schema.find? (fun c =>
      c.required && (values.find? (fun kv => kv.1 = c.name)).isNone) with
  | some c => Except.error { column := c.name, op := "required",
                             value := none }
  | none =>
      match normalizeValues schema values with
      | Except.error e => Except.error e
      | Except.ok row => Except.ok (table, row)

/-- Update description: normalised values, filters, and the broad-impact
flag raised exactly when the filter set is empty. -/
structure UpdateDescr where
  table : String
  values : StoredRow
  filters : List FilterTriple
  broadImpact : Bool
  deriving Repr, DecidableEq

/-- Modelled from the spec: buildUpdate validates values as insert does,
with every column optional, validates the filters, accepts an empty filter
set as meaning all rows, and flags that case as broad impact. -/
def buildUpdate (schema : TableSchema) (table : String)
    (values : List (String × InsertValue)) (filters : List FilterTriple) :
    Except ValidationError UpdateDescr :=
  match normalizeValues schema values with
  | Except.error e => Except.error e
  | Except.ok row =>
      match checkFilters schema filters with
      | Except.error e => Except.error e
      | Except.ok _ =>
          Except.ok { table := table, values := row, filters := filters,
                      broadImpact := filters.isEmpty }

/-- Delete description with the same broad-impact flag. -/
structure DeleteDescr where
  table : String
  filters : List FilterTriple
  broadImpact : Bool
  deriving Repr, DecidableEq

/-- Modelled from the spec: buildDelete validates the filters, accepts an
empty filter set as meaning all rows, and flags that case as broad
impact. -/
def buildDelete (schema : TableSchema) (table : String)
    (filters : List FilterTriple) : Except ValidationError DeleteDescr :=
  match checkFilters schema filters with
  | Except.error e => Except.error e
  | Except.ok _ =>
      Except.ok { table := table, filters := filters,
                  broadImpact := filters.isEmpty }

/-! ## Procedure dispatch pipeline

The router runs the zod input contract of a procedure before its handler.
The pipeline itself lives in the vendor tRPC package, so it is modelled
from the specification: invalid input short-circuits to a failed state with
a bad-input condition before dispatch. The handler is modelled as returning
its result, the successor store state and the number of external-store
contacts it performed, so that handler execution and store contact are both
observable in the result of the pipeline. -/

inductive DispatchError where
  | badInput
  deriving Repr, DecidableEq

/-- Modelled from the spec: the validate-then-dispatch pipeline. When
validation fails the handler is not entered, the state is untouched and
zero external-store contacts happen. -/
def dispatch {α ρ σ : Type} (validate : α → Bool)
    (handler : α → σ → ρ × σ × Nat) (input : α) (s : σ) :
    Except DispatchError ρ × σ × Nat :=
  if validate input then
    let r := handler input s
    (Except.ok r.1, r.2.1, r.2.2)
  else (Except.error DispatchError.badInput, s, 0)

/-- Raw input of posts.create before validation: published is optional and
defaulted later. -/
structure CreateRawInput where
  title : String
  content : String
  authorId : Int
  published : Option Bool
  deriving Repr, DecidableEq

/-- The zod contract of posts.create: title between 1 and 200 characters,
content nonempty. -/
def validateCreatePost (i : CreateRawInput) : Bool :=
  1 ≤ i.title.length && i.title.length ≤ 200 && 1 ≤ i.content.length

/-- Raw input of posts.update before validation. -/
def validateUpdatePost (i : UpdateInput) : Bool :=
  (match i.title with
   | some t => 1 ≤ t.length && t.length ≤ 200
   | none => true) &&
  (match i.content with
   | some c => 1 ≤ c.length
   | none => true)

/-- Modelled from the spec: the email well-formedness check of the zod
string validator, which lives in the vendor zod package. A malformed email
here is any string without an @ separating a nonempty local part from a
domain that holds a dot. -/
def isEmailShaped (s : String) : Bool :=
  match s.split (fun c => c = '@') with
  | [local_, domain] =>
      local_.length ≥ 1 && domain.length ≥ 3 && domain.toList.contains '.'
  | _ => false

/-- One file-metadata entry of the submitUserData input. -/
structure SubmitFileMeta where
  originalName : String
  mimeType : String
  size : Nat
  deriving Repr, DecidableEq

/-- Input of submitUserData.submit. -/
structure SubmitInput where
  name : String
  email : String
  files : List SubmitFileMeta
  deriving Repr, DecidableEq

/-- The zod contract of submitUserData.submit: nonempty name and a
well-formed email. -/
def validateSubmitUserData (i : SubmitInput) : Bool :=
  1 ≤ i.name.length && isEmailShaped i.email

/-- Shape test for a bare ISO calendar date: four digits, dash, two digits,
dash, two digits. Such a string is never one of the seven relative-day
keywords of the date filter contract. -/
def isIsoDateString (s : String) : Bool :=
  match s.toList with
  | [y1, y2, y3, y4, h1, m1, m2, h2, d1, d2] =>
      y1.isDigit && y2.isDigit && y3.isDigit && y4.isDigit &&
      h1 = '-' && m1.isDigit && m2.isDigit && h2 = '-' &&
      d1.isDigit && d2.isDigit
  | _ => false

/-! ## Theorems -/

/-- C1 counterexample: calling posts.getById with id 42, which is absent
from the seed store, yields a thrown Post-not-found error, not an empty or
undefined result, so the read-path contract stated by the claim fails on
the code. -/
theorem getById_missing_id_counterexample :
    (postsRouter.getById 42 initialPosts).1 = Except.error "Post not found" := by
  rfl

/-- C1 (amended): for every id with no matching record in the posts store,
posts.getById throws a Post-not-found error (and leaves the store
untouched) rather than returning an empty result. -/
theorem getById_missing_id_errors (s : PostsState) (id : Int)
    (h : ∀ p ∈ s.posts, p.id ≠ id) :
    postsRouter.getById id s = (Except.error "Post not found", s) := by
  unfold postsRouter.getById
  have hnone : s.posts.find? (fun p => p.id = id) = none := by
    rw [List.find?_eq_none]
    intro p hp
    simpa using h p hp
  rw [hnone]

/-- Witness for the amended C1 theorem at the seed store and id 42. -/
theorem getById_missing_id_errors_witness :
    postsRouter.getById 42 initialPosts =
      (Except.error "Post not found", initialPosts) :=
  getById_missing_id_errors initialPosts 42 (by decide)

/-- C2: a request without the app access token cookie fails with
Unauthorized and constructs no query-builder client, while a request that
carries a nonempty token yields exactly one freshly constructed client
bound to that token and to the process configuration. -/
theorem createContext_contract (env : EnvConfig) (r : TrpcRequest) :
    (getCookie r "app_access_token" = none →
      createContext env r = (Except.error CtxError.unauthorized, 0)) ∧
    (∀ tok, getCookie r "app_access_token" = some tok → tok ≠ "" →
      createContext env r =
        (Except.ok
          { queryBuilder :=
            { baseUrl := env.taylordbBaseUrl,
              baseId := env.taylordbServerId,
              apiKey := tok } }, 1)) := by
  constructor
  · intro h
    unfold createContext
    rw [h]
  · intro tok h hne
    unfold createContext
    rw [h]
    simp [hne]

/-- Witness for C2: no cookie map at all yields Unauthorized with zero
constructions; a request holding the token cookie yields the scoped
client. -/
theorem createContext_contract_witness :
    createContext ⟨"https://store", "base1"⟩ ⟨none⟩ =
      (Except.error CtxError.unauthorized, 0) ∧
    createContext ⟨"https://store", "base1"⟩
        ⟨some [("app_access_token", "tok")]⟩ =
      (Except.ok
        { queryBuilder :=
          { baseUrl := "https://store", baseId := "base1",
            apiKey := "tok" } }, 1) :=
  ⟨(createContext_contract _ _).1 rfl,
   (createContext_contract _ _).2 "tok" rfl (by decide)⟩

/-- A string shaped as an ISO calendar date is none of the seven
relative-day keywords, hence an inadmissible bare date filter value. -/
theorem iso_not_relative_keyword (s : String) (h : isIsoDateString s = true) :
    validDateValue (FilterValue.str s) = false := by
  rcases eq_or_ne s "today" with rfl | h1
  · exact absurd h (by decide)
  rcases eq_or_ne s "tomorrow" with rfl | h2
  · exact absurd h (by decide)
  rcases eq_or_ne s "yesterday" with rfl | h3
  · exact absurd h (by decide)
  rcases eq_or_ne s "oneWeekAgo" with rfl | h4
  · exact absurd h (by decide)
  rcases eq_or_ne s "oneWeekFromNow" with rfl | h5
  · exact absurd h (by decide)
  rcases eq_or_ne s "oneMonthAgo" with rfl | h6
  · exact absurd h (by decide)
  rcases eq_or_ne s "oneMonthFromNow" with rfl | h7
  · exact absurd h (by decide)
  simp [validDateValue, h1, h2, h3, h4, h5, h6, h7]

/-- Test table for the date filter scenario of the specification: a number
column id and a date column. -/
def dateTestSchema : TableSchema :=
  [{ name := "id", kind := ColumnKind.number, required := false },
   { name := "date", kind := ColumnKind.date, required := false }]

/-- C3: for every comparison operator of the date filter contract and
every bare ISO date string, buildSelect rejects the bare-string predicate
with a validation error naming the offending column, operator and value,
and accepts the same predicate in tagged exactDay form. -/
theorem date_filter_requires_tagged_tuple (op : String)
    (hop : op ∈ comparisonOps) (s : String) (h : isIsoDateString s = true) :
    buildSelect dateTestSchema "t" ["id"]
        [{ column := "date", op := op, value := FilterValue.str s }] =
      Except.error
        { column := "date", op := op, value := some (FilterValue.str s) } ∧
    buildSelect dateTestSchema "t" ["id"]
        [{ column := "date", op := op,
           value := FilterValue.tagStr "exactDay" s }] =
      Except.ok
        { table := "t", columns := ["id"],
          filters := [{ column := "date", op := op,
                        value := FilterValue.tagStr "exactDay" s }] } := by
  have hbare : validFilter ColumnKind.date op (FilterValue.str s) = false := by
    simp [validFilter, validDateFilter, hop, iso_not_relative_keyword s h]
  have htag :
      validFilter ColumnKind.date op (FilterValue.tagStr "exactDay" s) = true := by
    simp [validFilter, validDateFilter, hop, validDateValue]
  constructor
  · simp [buildSelect, checkFilters, checkFilter, findColumn, dateTestSchema,
      hbare]
  · simp [buildSelect, checkFilters, checkFilter, findColumn, dateTestSchema,
      htag]

/-- Witness for C3 at the operator and date of the specification
scenario. -/
theorem date_filter_requires_tagged_tuple_witness :
    buildSelect dateTestSchema "t" ["id"]
        [{ column := "date", op := "=",
           value := FilterValue.str "2024-01-15" }] =
      Except.error
        { column := "date", op := "=",
          value := some (FilterValue.str "2024-01-15") } ∧
    buildSelect dateTestSchema "t" ["id"]
        [{ column := "date", op := "=",
           value := FilterValue.tagStr "exactDay" "2024-01-15" }] =
      Except.ok
        { table := "t", columns := ["id"],
          filters := [{ column := "date", op := "=",
                        value := FilterValue.tagStr "exactDay" "2024-01-15" }] } :=
  date_filter_requires_tagged_tuple "=" (by decide) "2024-01-15" (by decide)

/-- C4: for every single-select column and every admissible option, the
bare-value insert shape and the singleton-sequence insert shape are both
accepted and build identical stored rows, the stored shape being the bare
option. -/
theorem single_select_bare_singleton_roundtrip (options : List String)
    (name table v : String) (hv : v ∈ options) :
    buildInsert
        [{ name := name, kind := ColumnKind.singleSelect options,
           required := true }] table [(name, InsertValue.str v)] =
      Except.ok (table, [(name, InsertValue.str v)]) ∧
    buildInsert
        [{ name := name, kind := ColumnKind.singleSelect options,
           required := true }] table [(name, InsertValue.strList [v])] =
      Except.ok (table, [(name, InsertValue.str v)]) ∧
    buildInsert
        [{ name := name, kind := ColumnKind.singleSelect options,
           required := true }] table [(name, InsertValue.str v)] =
      buildInsert
        [{ name := name, kind := ColumnKind.singleSelect options,
           required := true }] table [(name, InsertValue.strList [v])] ∧
    normalizeInsert (ColumnKind.singleSelect options) (InsertValue.str v) =
      normalizeInsert (ColumnKind.singleSelect options)
        (InsertValue.strList [v]) := by
  have h1 : buildInsert
      [{ name := name, kind := ColumnKind.singleSelect options,
         required := true }] table [(name, InsertValue.str v)] =
      Except.ok (table, [(name, InsertValue.str v)]) := by
    simp [buildInsert, normalizeValues, findColumn, normalizeInsert, hv]
  have h2 : buildInsert
      [{ name := name, kind := ColumnKind.singleSelect options,
         required := true }] table [(name, InsertValue.strList [v])] =
      Except.ok (table, [(name, InsertValue.str v)]) := by
    simp [buildInsert, normalizeValues, findColumn, normalizeInsert, hv]
  refine ⟨h1, h2, h1.trans h2.symm, ?_⟩
  simp [normalizeInsert, hv]

/-- Witness for C4 at the priority column of the query-builder example. -/
theorem single_select_bare_singleton_roundtrip_witness :
    buildInsert
        [{ name := "priority",
           kind := ColumnKind.singleSelect ["low", "medium", "high"],
           required := true }] "tasks" [("priority", InsertValue.str "low")] =
      Except.ok ("tasks", [("priority", InsertValue.str "low")]) ∧
    buildInsert
        [{ name := "priority",
           kind := ColumnKind.singleSelect ["low", "medium", "high"],
           required := true }] "tasks"
        [("priority", InsertValue.strList ["low"])] =
      Except.ok ("tasks", [("priority", InsertValue.str "low")]) :=
  ⟨(single_select_bare_singleton_roundtrip ["low", "medium", "high"]
      "priority" "tasks" "low" (by decide)).1,
   (single_select_bare_singleton_roundtrip ["low", "medium", "high"]
      "priority" "tasks" "low" (by decide)).2.1⟩

/-- C5: a batch with more files than the configured ceiling, or holding
any file above the configured size ceiling, is rejected wholesale with a
too-many-files or file-too-large condition, so no per-file metadata of the
batch is ever returned. -/
theorem upload_policy_rejects_wholesale (files : List UploadFile) (now : Nat)
    (h : files.length > maxFiles ∨ ∃ f ∈ files, f.size > maxFileSize) :
    uploadEndpoint files now = Except.error UploadError.tooManyFiles ∨
    uploadEndpoint files now = Except.error UploadError.fileTooLarge := by
  by_cases hc : files.length > maxFiles
  · left
    simp [uploadEndpoint, multerCheck, hc]
  · right
    have hany : files.any (fun f => f.size > maxFileSize) = true := by
      rcases h with h | ⟨f, hf, hs⟩
      · exact absurd h hc
      · rw [List.any_eq_true]
        exact ⟨f, hf, by simpa using hs⟩
    simp [uploadEndpoint, multerCheck, hc, hany]

/-- Witness for C5: a batch of eleven files is rejected with
too-many-files, and a single oversized file with file-too-large. -/
theorem upload_policy_rejects_wholesale_witness :
    (uploadEndpoint (List.replicate 11 ⟨"a", "text/plain", 1⟩) 0 =
        Except.error UploadError.tooManyFiles ∨
      uploadEndpoint (List.replicate 11 ⟨"a", "text/plain", 1⟩) 0 =
        Except.error UploadError.fileTooLarge) ∧
    (uploadEndpoint [⟨"big", "application/zip", 10485761⟩] 0 =
        Except.error UploadError.tooManyFiles ∨
      uploadEndpoint [⟨"big", "application/zip", 10485761⟩] 0 =
        Except.error UploadError.fileTooLarge) :=
  ⟨upload_policy_rejects_wholesale _ 0 (Or.inl (by decide)),
   upload_policy_rejects_wholesale _ 0
     (Or.inr ⟨⟨"big", "application/zip", 10485761⟩, by decide, by decide⟩)⟩

/-- C6: an accepted nonempty batch inside the ceilings is answered with one
metadata entry per file carrying name, mime type, size and formatted size,
in input order, together with the formatted sum of the sizes. -/
theorem upload_success_metadata (files : List UploadFile) (now : Nat)
    (hne : files ≠ []) (hcount : files.length ≤ maxFiles)
    (hsize : ∀ f ∈ files, f.size ≤ maxFileSize) :
    uploadEndpoint files now =
      Except.ok
        { filesCount := files.length,
          files := files.map fileMeta,
          totalSize :=
            formatFileSize (files.foldl (fun sum f => sum + f.size) 0),
          uploadedAt := now } ∧
    (files.map fileMeta).length = files.length ∧
    ∀ i : Nat, (files.map fileMeta)[i]? = Option.map fileMeta files[i]? := by
  have hc : ¬ files.length > maxFiles := not_lt.mpr hcount
  have hany : files.any (fun f => f.size > maxFileSize) = false := by
    rw [List.any_eq_false]
    intro f hf
    simpa using hsize f hf
  have hlen : ¬ files.length = 0 := by
    intro h0
    exact hne (List.length_eq_zero.mp h0)
  refine ⟨?_, List.length_map _ _, fun i => List.getElem?_map ..⟩
  simp [uploadEndpoint, multerCheck, hc, hany, hlen]

/-- Witness for C6 at a concrete two-file batch. -/
theorem upload_success_metadata_witness :
    uploadEndpoint
        [⟨"a.txt", "text/plain", 100⟩, ⟨"b.png", "image/png", 2048⟩] 7 =
      Except.ok
        { filesCount := 2,
          files :=
            [{ originalName := "a.txt", mimeType := "text/plain",
               size := 100, sizeFormatted := "100 B" },
             { originalName := "b.png", mimeType := "image/png",
               size := 2048, sizeFormatted := "2.0 KB" }],
          totalSize := "2.1 KB",
          uploadedAt := 7 } := by
  have h := (upload_success_metadata
    [⟨"a.txt", "text/plain", 100⟩, ⟨"b.png", "image/png", 2048⟩] 7
    (by decide) (by decide) (by decide)).1
  have l100 : Nat.log 1024 100 = 0 := Nat.log_eq_zero_iff.mpr (by norm_num)
  have l2048 : Nat.log 1024 2048 = 1 :=
    Nat.log_eq_of_pow_le_of_lt_pow (by norm_num) (by norm_num)
  have l2148 : Nat.log 1024 2148 = 1 :=
    Nat.log_eq_of_pow_le_of_lt_pow (by norm_num) (by norm_num)
  rw [h]
  norm_num [fileMeta, formatFileSize, toFixedOne, l100, l2048, l2148]
  exact ⟨⟨rfl, rfl⟩, rfl⟩

/-- C7: for every procedure, input that fails the input contract
short-circuits the pipeline to a bad-input failure before dispatch, with
the handler never entered, the state untouched and zero external-store
contacts; and the contracts of posts.create and submitUserData.submit
indeed classify an empty title, an overlong title, empty content, an empty
name and a malformed email as invalid. -/
theorem invalid_input_short_circuits :
    (∀ (α ρ σ : Type) (validate : α → Bool)
       (handler : α → σ → ρ × σ × Nat) (input : α) (s : σ),
       validate input = false →
       dispatch validate handler input s =
         (Except.error DispatchError.badInput, s, 0)) ∧
    (∀ i : CreateRawInput,
       i.title.length = 0 ∨ 200 < i.title.length ∨ i.content.length = 0 →
       validateCreatePost i = false) ∧
    (∀ i : SubmitInput,
       i.name.length = 0 ∨ isEmailShaped i.email = false →
       validateSubmitUserData i = false) := by
  refine ⟨?_, ?_, ?_⟩
  · intro α ρ σ validate handler input s hval
    simp [dispatch, hval]
  · intro i h
    simp only [validateCreatePost, Bool.and_eq_false_iff,
      decide_eq_false_iff_not, not_le]
    omega
  · intro i h
    rcases h with h | h
    · simp only [validateSubmitUserData, Bool.and_eq_false_iff,
        decide_eq_false_iff_not, not_le]
      left
      omega
    · simp [validateSubmitUserData, h]

/-- Witness for C7: the empty-title create input is rejected before the
handler, whose store contact never happens. -/
theorem invalid_input_short_circuits_witness :
    dispatch validateCreatePost
        (fun _ (s : PostsState) => ((0 : Nat), s, 1))
        { title := "", content := "Body", authorId := 1, published := none }
        initialPosts =
      (Except.error DispatchError.badInput, initialPosts, 0) :=
  invalid_input_short_circuits.1 _ _ _ validateCreatePost _ _ initialPosts
    (invalid_input_short_circuits.2.1
      { title := "", content := "Body", authorId := 1, published := none }
      (Or.inl (by decide)))

/-- C8: an update or delete built with an empty filter set succeeds for
every table and valid value assignment, and the resulting description
carries the broad-impact flag, which is raised exactly when the filter set
is empty. -/
theorem empty_filter_mutations_broad_impact (schema : TableSchema)
    (table : String) (values : List (String × InsertValue)) (row : StoredRow)
    (hv : normalizeValues schema values = Except.ok row) :
    buildUpdate schema table values [] =
      Except.ok { table := table, values := row, filters := [],
                  broadImpact := true } ∧
    buildDelete schema table [] =
      Except.ok { table := table, filters := [], broadImpact := true } ∧
    (∀ filters d, buildUpdate schema table values filters = Except.ok d →
      d.broadImpact = filters.isEmpty) ∧
    (∀ filters d, buildDelete schema table filters = Except.ok d →
      d.broadImpact = filters.isEmpty) := by
  refine ⟨?_, ?_, ?_, ?_⟩
  · simp [buildUpdate, hv, checkFilters]
  · simp [buildDelete, checkFilters]
  · intro filters d hd
    unfold buildUpdate at hd
    rw [hv] at hd
    cases hcf : checkFilters schema filters with
    | error e => rw [hcf] at hd; exact absurd hd (by simp)
    | ok u =>
        rw [hcf] at hd
        simp only [Except.ok.injEq] at hd
        rw [← hd]
  · intro filters d hd
    unfold buildDelete at hd
    cases hcf : checkFilters schema filters with
    | error e => rw [hcf] at hd; exact absurd hd (by simp)
    | ok u =>
        rw [hcf] at hd
        simp only [Except.ok.injEq] at hd
        rw [← hd]

/-- Witness for C8 at the specification scenario: update of status to
active with no filters, and delete with no filters. -/
theorem empty_filter_mutations_broad_impact_witness :
    buildUpdate [{ name := "status", kind := ColumnKind.text,
                   required := false }] "t"
        [("status", InsertValue.str "active")] [] =
      Except.ok { table := "t",
                  values := [("status", InsertValue.str "active")],
                  filters := [], broadImpact := true } ∧
    buildDelete [{ name := "status", kind := ColumnKind.text,
                   required := false }] "t" [] =
      Except.ok { table := "t", filters := [], broadImpact := true } :=
  ⟨(empty_filter_mutations_broad_impact
      [{ name := "status", kind := ColumnKind.text, required := false }] "t"
      [("status", InsertValue.str "active")]
      [("status", InsertValue.str "active")] rfl).1,
   (empty_filter_mutations_broad_impact
      [{ name := "status", kind := ColumnKind.text, required := false }] "t"
      [("status", InsertValue.str "active")]
      [("status", InsertValue.str "active")] rfl).2.1⟩

/-- A found post satisfies the searched id. -/
theorem find?_id_eq (l : List Post) (i : Int) (p : Post)
    (h : l.find? (fun r => r.id = i) = some p) : p.id = i := by
  have := List.find?_some h
  simpa using this

/-- Replacing the first matching post by one with the same id leaves the
id image of the list unchanged. -/
theorem map_id_replaceFirst (l : List Post) (i : Int) (q : Post)
    (hq : q.id = i) :
    (postsRouter.replaceFirst l i q).map Post.id = l.map Post.id := by
  induction l with
  | nil => rfl
  | cons p rest ih =>
      by_cases hp : p.id = i
      · simp [postsRouter.replaceFirst, hp, hq]
      · simp [postsRouter.replaceFirst, hp, ih]

/-- Splits a list at the first post matching the searched id and describes
the replacement of that post: everything before and after is untouched. -/
theorem find?_split (l : List Post) (i : Int) (p : Post)
    (h : l.find? (fun r => r.id = i) = some p) (q : Post) :
    ∃ l1 l2, l = l1 ++ p :: l2 ∧ (∀ r ∈ l1, r.id ≠ i) ∧
      postsRouter.replaceFirst l i q = l1 ++ q :: l2 := by
  induction l with
  | nil => simp at h
  | cons a rest ih =>
      by_cases ha : a.id = i
      · rw [List.find?_cons_of_pos _ (by simpa using ha)] at h
        have hap : a = p := by simpa using h
        subst hap
        exact ⟨[], rest, rfl, by simp,
          by simp [postsRouter.replaceFirst, ha]⟩
      · rw [List.find?_cons_of_neg _ (by simpa using ha)] at h
        obtain ⟨l1, l2, h1, h2, h3⟩ := ih h
        refine ⟨a :: l1, l2, by simp [h1], ?_, ?_⟩
        · intro r hr
          rcases List.mem_cons.mp hr with rfl | hr'
          · exact ha
          · exact h2 r hr'
        · simp [postsRouter.replaceFirst, ha, h3]

/-- C9: the posts store invariant, pairwise distinct ids dominated
strictly by the id counter, is preserved by every operation of the posts
router, and the post returned by create carries an id that no stored post
had. -/
theorem posts_store_invariant (s : PostsState) (h : PostsInv s) :
    (∀ input, PostsInv (postsRouter.getAll input s).2) ∧
    (∀ id, PostsInv (postsRouter.getById id s).2) ∧
    (∀ input now, PostsInv (postsRouter.create input now s).2 ∧
      (postsRouter.create input now s).1.id ∉ s.posts.map Post.id) ∧
    (∀ input, PostsInv (postsRouter.update input s).2) ∧
    (∀ id, PostsInv (postsRouter.delete id s).2) ∧
    (∀ id, PostsInv (postsRouter.publish id s).2) := by
  obtain ⟨hnd, hlt⟩ := h
  have fresh : s.nextId ∉ s.posts.map Post.id := by
    intro hmem
    obtain ⟨p, hp, hid⟩ := List.mem_map.mp hmem
    exact (hlt p hp).ne hid
  refine ⟨?_, ?_, ?_, ?_, ?_, ?_⟩
  · intro input
    exact ⟨hnd, hlt⟩
  · intro id
    unfold postsRouter.getById
    cases hf : s.posts.find? (fun p => p.id = id) with
    | none => exact ⟨hnd, hlt⟩
    | some p => exact ⟨hnd, hlt⟩
  · intro input now
    have hnodup : ((s.posts ++
        [(postsRouter.create input now s).1]).map Post.id).Nodup := by
      rw [List.map_append, List.nodup_append]
      refine ⟨hnd, List.nodup_singleton _, ?_⟩
      intro x hx hmem
      have hx' : x = s.nextId := by simpa using hmem
      subst hx'
      exact fresh hx
    refine ⟨⟨hnodup, ?_⟩, fresh⟩
    intro p hp
    rcases List.mem_append.mp hp with hp | hp
    · exact (hlt p hp).trans (lt_add_one _)
    · have hp' : p = (postsRouter.create input now s).1 := by simpa using hp
      subst hp'
      exact lt_add_one _
  · intro input
    unfold postsRouter.update
    cases hf : s.posts.find? (fun p => p.id = input.id) with
    | none => exact ⟨hnd, hlt⟩
    | some p =>
        have hpid : (postsRouter.applyUpdate p input).id = input.id :=
          find?_id_eq s.posts input.id p hf
        have hmap := map_id_replaceFirst s.posts input.id
          (postsRouter.applyUpdate p input) hpid
        refine ⟨?_, ?_⟩
        · simpa [hmap] using hnd
        · intro q hq
          have hqmem : q.id ∈ (postsRouter.replaceFirst s.posts input.id
              (postsRouter.applyUpdate p input)).map Post.id :=
            List.mem_map_of_mem _ hq
          rw [hmap] at hqmem
          obtain ⟨r, hr, hrid⟩ := List.mem_map.mp hqmem
          rw [← hrid]
          exact hlt r hr
  · intro id
    unfold postsRouter.delete
    cases hf : s.posts.find? (fun p => p.id = id) with
    | none => exact ⟨hnd, hlt⟩
    | some p =>
        have hsub : List.Sublist (s.posts.eraseP (fun q => q.id = id))
            s.posts := List.eraseP_sublist _
        refine ⟨hnd.sublist (hsub.map Post.id), ?_⟩
        intro q hq
        exact hlt q (hsub.subset hq)
  · intro id
    unfold postsRouter.publish
    cases hf : s.posts.find? (fun p => p.id = id) with
    | none => exact ⟨hnd, hlt⟩
    | some p =>
        have hpid : ({ p with published := true } : Post).id = id :=
          find?_id_eq s.posts id p hf
        have hmap := map_id_replaceFirst s.posts id
          { p with published := true } hpid
        refine ⟨?_, ?_⟩
        · simpa [hmap] using hnd
        · intro q hq
          have hqmem : q.id ∈ (postsRouter.replaceFirst s.posts id
              { p with published := true }).map Post.id :=
            List.mem_map_of_mem _ hq
          rw [hmap] at hqmem
          obtain ⟨r, hr, hrid⟩ := List.mem_map.mp hqmem
          rw [← hrid]
          exact hlt r hr

/-- Witness for C9: the seed store satisfies the invariant, and a create
against it preserves it while returning a fresh id. -/
theorem posts_store_invariant_witness :
    PostsInv (postsRouter.create ⟨"T", "C", 1, false⟩ 5 initialPosts).2 ∧
    (postsRouter.create ⟨"T", "C", 1, false⟩ 5 initialPosts).1.id ∉
      initialPosts.posts.map Post.id :=
  (posts_store_invariant initialPosts (by decide)).2.2.1 ⟨"T", "C", 1, false⟩ 5

/-- C10: posts.update on a matched post rewrites only that post, setting
exactly the supplied fields, keeps its id, author and creation timestamp,
leaves every other post and the id counter untouched, and preserves the
store length. -/
theorem posts_update_frame (s : PostsState) (input : UpdateInput) (p : Post)
    (hv : validateUpdatePost input = true)
    (hf : s.posts.find? (fun r => r.id = input.id) = some p) :
    ∃ l1 l2,
      s.posts = l1 ++ p :: l2 ∧
      (∀ r ∈ l1, r.id ≠ input.id) ∧
      postsRouter.update input s =
        (Except.ok (postsRouter.applyUpdate p input),
         { posts := l1 ++ postsRouter.applyUpdate p input :: l2,
           nextId := s.nextId }) ∧
      (postsRouter.applyUpdate p input).id = p.id ∧
      (postsRouter.applyUpdate p input).authorId = p.authorId ∧
      (postsRouter.applyUpdate p input).createdAt = p.createdAt ∧
      (postsRouter.applyUpdate p input).title =
        (match input.title with | some t => t | none => p.title) ∧
      (postsRouter.applyUpdate p input).content =
        (match input.content with | some c => c | none => p.content) ∧
      (postsRouter.applyUpdate p input).published =
        (match input.published with | some b => b | none => p.published) ∧
      (l1 ++ postsRouter.applyUpdate p input :: l2).length =
        s.posts.length := by
  obtain ⟨l1, l2, h1, h2, h3⟩ :=
    find?_split s.posts input.id p hf (postsRouter.applyUpdate p input)
  have hupd : postsRouter.update input s =
      (Except.ok (postsRouter.applyUpdate p input),
       { posts := l1 ++ postsRouter.applyUpdate p input :: l2,
         nextId := s.nextId }) := by
    unfold postsRouter.update
    rw [hf]
    dsimp only
    rw [h3]
  have htitle : (postsRouter.applyUpdate p input).title =
      (match input.title with | some t => t | none => p.title) := by
    cases ht : input.title with
    | none => simp [postsRouter.applyUpdate, ht]
    | some t =>
        have hlen : 1 ≤ t.length := by
          unfold validateUpdatePost at hv
          rw [ht] at hv
          simp only [Bool.and_eq_true, decide_eq_true_eq] at hv
          exact hv.1.1
        have hne : t ≠ "" := by
          intro h0
          rw [h0] at hlen
          simp at hlen
        simp [postsRouter.applyUpdate, ht, hne]
  have hcontent : (postsRouter.applyUpdate p input).content =
      (match input.content with | some c => c | none => p.content) := by
    cases hc : input.content with
    | none => simp [postsRouter.applyUpdate, hc]
    | some c =>
        have hlen : 1 ≤ c.length := by
          unfold validateUpdatePost at hv
          rw [hc] at hv
          simp only [Bool.and_eq_true, decide_eq_true_eq] at hv
          exact hv.2
        have hne : c ≠ "" := by
          intro h0
          rw [h0] at hlen
          simp at hlen
        simp [postsRouter.applyUpdate, hc, hne]
  have hlength : (l1 ++ postsRouter.applyUpdate p input :: l2).length =
      s.posts.length := by
    rw [h1]
    simp
  exact ⟨l1, l2, h1, h2, hupd, rfl, rfl, rfl, htitle, hcontent, rfl, hlength⟩

/-- The seed post of the posts store. -/
def seedPost : Post :=
  { id := 1, title := "Hello World", content := "This is my first post!",
    authorId := 1, published := true, createdAt := 0 }

/-- A concrete update input touching title and published but not
content. -/
def frameInput : UpdateInput :=
  { id := 1, title := some "New title", content := none,
    published := some false }

/-- Witness for C10 at the seed store. -/
theorem posts_update_frame_witness :
    ∃ l1 l2,
      initialPosts.posts = l1 ++ seedPost :: l2 ∧
      (∀ r ∈ l1, r.id ≠ frameInput.id) ∧
      postsRouter.update frameInput initialPosts =
        (Except.ok (postsRouter.applyUpdate seedPost frameInput),
         { posts := l1 ++ postsRouter.applyUpdate seedPost frameInput :: l2,
           nextId := initialPosts.nextId }) ∧
      (postsRouter.applyUpdate seedPost frameInput).id = seedPost.id ∧
      (postsRouter.applyUpdate seedPost frameInput).authorId =
        seedPost.authorId ∧
      (postsRouter.applyUpdate seedPost frameInput).createdAt =
        seedPost.createdAt ∧
      (postsRouter.applyUpdate seedPost frameInput).title =
        (match frameInput.title with | some t => t | none => seedPost.title) ∧
      (postsRouter.applyUpdate seedPost frameInput).content =
        (match frameInput.content with
         | some c => c
         | none => seedPost.content) ∧
      (postsRouter.applyUpdate seedPost frameInput).published =
        (match frameInput.published with
         | some b => b
         | none => seedPost.published) ∧
      (l1 ++ postsRouter.applyUpdate seedPost frameInput :: l2).length =
        initialPosts.posts.length :=
  posts_update_frame initialPosts frameInput seedPost (by decide) rfl

end TaylorGateway
